import Mathlib

/-!
Verification of the CI log-analysis pipeline core

Shallow embedding of the core of the `CICD-Analysis` FastAPI backend
(`FASTAPI_BACKEND/main.py` and `FASTAPI_BACKEND/utils.py`):

* the stateful multi-line error-block extractor (`extract_error_blocks`);
* the depth-bounded directory crawler (`collect_logs_with_failed_check`);
* the cached download step (`download_log_file`);
* the AI analysis entry point (`analyze_with_ai`) with its 10,000-line
  truncation and field parsing;
* the analysis orchestrator (`run_analysis`) with its worker-pool
  collection loop and progress record.

External effects (HTTP fetches, the LLM, the filesystem, report rendering)
are modelled as explicit oracles/state so that every definition is an
executable Lean function mirroring the Python control flow line by line.
-/

namespace CicdAnalysis

/-! ## String helpers

Small executable models of the Python string operations used by the source
(`in` substring test, `rstrip("\n")`). -/

/-- Predicate `beginsWithChars pat s`: true when `pat` is an initial run of `s`
(character-level model of Python prefix testing used by `charsContain`). -/

def beginsWithChars : List Char → List Char → Bool
  | [], _ => true
  | _ :: _, [] => false
  | p :: ps, c :: cs => (p == c) && beginsWithChars ps cs

/-- Predicate `charsContain pat s`: true when `pat` occurs contiguously inside `s`. -/

def charsContain (pat : List Char) : List Char → Bool
  | [] => pat.isEmpty
  | c :: rest => beginsWithChars pat (c :: rest) || charsContain pat rest

/-- Model of Python's `pat in s` substring test. -/

def strContains (s pat : String) : Bool :=
  charsContain pat.data s.data

/-- Model of Python's `s.rstrip("\n")`: remove every trailing newline
character (note: *all* of them, not just one). -/

def rstripNl (s : String) : String :=
  String.mk (s.data.reverse.dropWhile (fun c => c == '\n')).reverse

/-- Model of Python's `s.startswith(pre)`. -/

def pyStartsWith (s pre : String) : Bool :=
  beginsWithChars pre.data s.data

/-- Model of Python's `s.endswith(suf)`. -/

def pyEndsWith (s suf : String) : Bool :=
  beginsWithChars suf.data.reverse s.data.reverse

/-- Strip leading and trailing whitespace from a character list
(model of Python's `str.strip()`). -/

def trimChars (l : List Char) : List Char :=
  ((l.dropWhile Char.isWhitespace).reverse.dropWhile Char.isWhitespace).reverse

/-- Model of Python's `s.strip()`. -/

def pyStrip (s : String) : String :=
  String.mk (trimChars s.data)

/-- Model of Python's `s.lower()` (ASCII case folding suffices for the
markers compared by the source). -/

def pyLower (s : String) : String :=
  String.mk (s.data.map Char.toLower)

/-- Worker for `pySplit`: fuel-driven scan so that the recursion is
structural (the fuel is always at least the number of characters left,
so the fallback branch is unreachable). -/

def pySplitGo (sep : List Char) : Nat → List Char → List Char → List (List Char)
  | 0, s, acc => [acc.reverse ++ s]
  | _ + 1, [], acc => [acc.reverse]
  | fuel + 1, c :: cs, acc =>
    if beginsWithChars sep (c :: cs) then
      acc.reverse :: pySplitGo sep fuel (List.drop sep.length (c :: cs)) []
    else
      pySplitGo sep fuel cs (c :: acc)

/-- Model of Python's `s.split(sep)` for a non-empty separator:
left-to-right, non-overlapping; `"".split(sep) == [""]`. -/

def pySplit (s sep : String) : List String :=
  (pySplitGo sep.data (s.data.length + 1) s.data []).map String.mk

/-! ## `utils.extract_error_blocks` (src/FASTAPI_BACKEND/utils.py, lines 4-40)

The source iterates over the lines of a file (each line keeps its trailing
`"\n"`, except possibly the last).  The embedding takes that line list
directly; the `except` clause of the source only concerns the file read
and is the caller's concern. -/

/-- Test that `line.split(" - ")` has more than 4 fields and the 5th-from-start field
of index 3 contains `"ERROR"` (utils.py line 12-15). -/

def lineErrorField (line : String) : Bool :=
  match pySplit line " - " with
  | _ :: _ :: _ :: f3 :: _ :: _ => strContains f3 "ERROR"
  | _ => false

/-- A line opens a new error block: `error_message or "Traceback" in line`
(utils.py line 16). -/

def isBlockStart (line : String) : Bool :=
  lineErrorField line || strContains line "Traceback"

/-- Model of `re.match(r"^\d{4}-\d{2}-\d{2} \d{2}:\d{2}:\d{2}", line)`:
the line begins with a `YYYY-MM-DD HH:MM:SS` timestamp. -/

def startsWithTimestamp (s : String) : Bool :=
  match s.data with
  | y1 :: y2 :: y3 :: y4 :: '-' :: m1 :: m2 :: '-' :: d1 :: d2 :: ' ' ::
      h1 :: h2 :: ':' :: n1 :: n2 :: ':' :: s1 :: s2 :: _ =>
    y1.isDigit && y2.isDigit && y3.isDigit && y4.isDigit &&
    m1.isDigit && m2.isDigit && d1.isDigit && d2.isDigit &&
    h1.isDigit && h2.isDigit && n1.isDigit && n2.isDigit &&
    s1.isDigit && s2.isDigit
  | _ => false

/-- The continuation test of the `elif in_error_block` branch
(utils.py lines 23-28). -/

def isContinuation (line : String) : Bool :=
  pyStartsWith line "\t" || pyStrip line == "" || !(startsWithTimestamp line) ||
    pyStartsWith line "Traceback"

/-- Emission `"".join(current_block).rstrip("\n")` (utils.py lines 18, 31, 36). -/

def joinBlock (b : List String) : String :=
  rstripNl (String.join b)

/-- The loop body of `extract_error_blocks`, with the remaining lines,
the `current_block` accumulator and the `in_error_block` flag as state.
Mirrors utils.py lines 11-36 branch by branch. -/

def extractGo : List String → List String → Bool → List String
  | [], curr, _ => if curr.isEmpty then [] else [joinBlock curr]
  | line :: rest, curr, inBlock =>
    if isBlockStart line then
      (if curr.isEmpty then [] else [joinBlock curr]) ++ extractGo rest [line] true
    else if inBlock then
      if isContinuation line then
        extractGo rest (curr ++ [line]) true
      else
        joinBlock curr :: extractGo rest [] false
    else
      extractGo rest curr inBlock

/-- Function `extract_error_blocks` on the document's line sequence. -/

def extract_error_blocks (lines : List String) : List String :=
  extractGo lines [] false

/-- Instrumented twin of `extractGo` that reports each block as its list of
original (untrimmed, unjoined) lines. -/

def extractBlocksGo : List String → List String → Bool → List (List String)
  | [], curr, _ => if curr.isEmpty then [] else [curr]
  | line :: rest, curr, inBlock =>
    if isBlockStart line then
      (if curr.isEmpty then [] else [curr]) ++ extractBlocksGo rest [line] true
    else if inBlock then
      if isContinuation line then
        extractBlocksGo rest (curr ++ [line]) true
      else
        curr :: extractBlocksGo rest [] false
    else
      extractBlocksGo rest curr inBlock

/-- The blocks of a document, each given as its original line list. -/

def extractBlockLines (lines : List String) : List (List String) :=
  extractBlocksGo lines [] false

/-- Spec-side definition, modelled from the spec's words "block text
preserves original line content except that a trailing newline is trimmed":
trim exactly one trailing newline.  Compared against the source's
`rstrip("\n")` behaviour (`rstripNl`, which trims them all). -/

def specTrimOneNewline (s : String) : String :=
  if pyEndsWith s "\n" then String.mk s.data.dropLast else s

/-! ## `collect_logs_with_failed_check` (src/FASTAPI_BACKEND/main.py, lines 115-142)

The crawler fetches a directory listing per URL and walks its anchors.
The HTTP world is an oracle `Site` mapping a URL to its anchor list, with
`none` standing for any network/parse failure for that URL (the source
catches the exception, logs it, and treats the subtree as empty).
An `Anchor` carries the attributes the source inspects: `href`, the
visible text, and the inline `style` attribute.

`urljoin` abstracts `urllib.request.urljoin` (external library code): in
the directory listings crawled here the hrefs are relative child names,
which resolve to `base ++ href`.  The claims proved below do not depend on
the resolution details, only on which URLs are distinct. -/

/-- An HTML anchor as seen by the crawler. -/

structure Anchor where
  href : String
  text : String
  style : String
deriving DecidableEq

/-- The HTTP world: each URL either serves a directory listing (its anchor
list) or fails to load. -/

def Site : Type := String → Option (List Anchor)

/-- Model of `urllib.request.urljoin(url, href)` for the relative child
links of a directory listing. -/

def urljoin (base href : String) : String :=
  base ++ href

/-- Accumulated crawl output: `all_logs` and `failed_logs` in append
order, plus the instrumentation `fetched` recording every URL the crawler
attempted to fetch together with the `depth` at which it did so. -/

structure CrawlOut where
  allLogs : List String
  failedLogs : List String
  fetched : List (String × Nat)
deriving DecidableEq

/-- The empty crawl output. -/

def CrawlOut.empty : CrawlOut := ⟨[], [], []⟩

/-- Concatenation of crawl outputs (appending to the shared accumulator
lists of the source). -/

def CrawlOut.app (x y : CrawlOut) : CrawlOut :=
  ⟨x.allLogs ++ y.allLogs, x.failedLogs ++ y.failedLogs, x.fetched ++ y.fetched⟩

/-- main.py line 128-129: `if href.endswith(".log"): all_logs.append(full_url)`. -/

def anchorLogOf (url : String) (a : Anchor) : List String :=
  if pyEndsWith a.href ".log" then [urljoin url a.href] else []

/-- main.py lines 130-134: the failed-marker test — visible text
case-insensitively equal to `"failed"`, a `color: red` style, and a
`.log` target. -/

def anchorFailedOf (url : String) (a : Anchor) : List String :=
  if pyLower (pyStrip a.text) == "failed" && strContains (pyLower a.style) "color: red"
      && pyEndsWith a.href ".log" then
    [urljoin url a.href]
  else []

/-- main.py line 135: a subdirectory link — ends with `/`, is not a query
string, is not the parent link. -/

def isDirHref (href : String) : Bool :=
  pyEndsWith href "/" && !(pyStartsWith href "?") && href != "../"

/-- The `for link in soup.find_all(...)` loop body (main.py lines
125-136), with the recursive descent supplied as `go`. -/

def crawlAnchors (go : String → CrawlOut) (url : String) : List Anchor → CrawlOut
  | [] => CrawlOut.empty
  | a :: rest =>
    (CrawlOut.app ⟨anchorLogOf url a, anchorFailedOf url a, []⟩
      (if isDirHref a.href then go (urljoin url a.href) else CrawlOut.empty)).app
      (crawlAnchors go url rest)

/-- The inner `crawl(url, depth)` of `collect_logs_with_failed_check`
(main.py lines 119-138).  The `fuel` argument only makes the recursion
structural: it starts at `max_depth + 1` and stays equal to
`max_depth + 1 - depth`, so it reaches `0` exactly when `depth >
max_depth`, where the source also stops. -/

def crawlGo (site : Site) (max_depth : Nat) : Nat → Nat → String → CrawlOut
  | 0, _, _ => CrawlOut.empty
  | fuel + 1, depth, url =>
    if max_depth < depth then CrawlOut.empty
    else
      match site url with
      | none => ⟨[], [], [(url, depth)]⟩
      | some anchors =>
        CrawlOut.app ⟨[], [], [(url, depth)]⟩
          (crawlAnchors (fun u => crawlGo site max_depth fuel (depth + 1) u) url anchors)

/-- The whole crawl starting from `crawl(base_url, 0)` (main.py line 140). -/

def crawlResult (site : Site) (base_url : String) (max_depth : Nat) : CrawlOut :=
  crawlGo site max_depth (max_depth + 1) 0 base_url

/-- Function `collect_logs_with_failed_check(base_url, max_depth)` (main.py lines
115-142): returns `all_logs` as accumulated and `list(set(failed_logs))`.
The Python `set` is modelled by `List.dedup` — duplicate-free with the
same membership; the enumeration order of a Python `set` is arbitrary. -/

def collect_logs_with_failed_check (site : Site) (base_url : String)
    (max_depth : Nat) : List String × List String :=
  let r := crawlResult site base_url max_depth
  (r.allLogs, r.failedLogs.dedup)

/-- Concrete two-level site used by the crawler witnesses: the root links
to a subdirectory and to a failed log, the subdirectory links to another
failed log reachable twice. -/

def site1 : Site := fun u =>
  if u = "r/" then
    some [⟨"sub/", "", ""⟩, ⟨"a.log", "Failed", "color: red"⟩]
  else if u = "r/sub/" then
    some [⟨"b.log", " FAILED ", "COLOR: RED;"⟩, ⟨"b.log", "Failed", "color: red"⟩,
          ⟨"../", "", ""⟩, ⟨"?C=M;O=A", "", ""⟩]
  else none

/-! ## `download_log_file` (src/FASTAPI_BACKEND/main.py, lines 144-153)

The source executes, for a missing `save_path`:
```
with urllib.request.urlopen(url) as response, open(save_path, "wb") as out_file:
    out_file.write(response.read())
```
`urlopen` is evaluated first; if it raises, `open` never runs and nothing
is created.  If `urlopen` succeeds, `open(save_path, "wb")` creates (and
truncates) the destination file *before* `response.read()` runs, so an
error raised while reading the body leaves an empty file behind at
`save_path`.  `FetchOutcome` enumerates these cases of the network
interaction; the filesystem is an association list from path to content
(`lookup` finds the most recent write). -/

/-- Outcome of the network interaction of one download. -/

inductive FetchOutcome where
  | connectError (msg : String)
  | readError (msg : String)
  | ok (content : String)
deriving DecidableEq

/-- The local filesystem as a path-to-content association list. -/

def FileSys : Type := List (String × String)

/-- Model of `os.path.exists(save_path)`. -/

def FileSys.hasFile (fs : FileSys) (p : String) : Bool :=
  (List.lookup p fs).isSome

/-- Model of `open(p, "wb")` followed by writing `content`. -/

def FileSys.writeFile (fs : FileSys) (p content : String) : FileSys :=
  (p, content) :: fs

/-- Function `download_log_file(url, save_path)` run against filesystem `fs` with
network outcome `net`; returns the boolean result and the filesystem
after the call. -/

def download_log_file (fs : FileSys) (url save_path : String)
    (net : FetchOutcome) : Bool × FileSys :=
  if fs.hasFile save_path then (true, fs)
  else
    match net with
    | .connectError _ => (false, fs)
    | .readError _ => (false, fs.writeFile save_path "")
    | .ok content => (true, fs.writeFile save_path content)

/-! ## `analyze_with_ai` (src/FASTAPI_BACKEND/main.py, lines 157-221)

The function reads the log, keeps the final 10,000 lines
(`f.readlines()[-10000:]`), hands that content to the RAG pipeline and
parses `Reason:`/`Fix:`/`Steps:` fields out of the response text with
`re.search(r"Key\s*:\s*(.*?)(?:\n|$)", text, re.IGNORECASE)`.

The pipeline (LlamaIndex + Ollama) is the oracle `LlmEnv.respond`,
mapping the (truncated) log content to either the response text plus a
digest of the retrieved context chunks, or the message of whatever
exception the `try` block caught (the `except` branch then produces the
degraded result of main.py lines 211-221). -/

/-- Model of `lst[-n:]` in Python: the final `n` elements. -/

def lastLines (n : Nat) (l : List String) : List String :=
  l.drop (l.length - n)

/-- Model of `os.path.basename` / `url.split("/")[-1]` for the paths used here. -/

def basenameOf (p : String) : String :=
  (pySplit p "/").getLastD ""

/-- The structured verdict produced per analyzed log. -/

structure AnalysisResult where
  name : String
  raw : String
  reason : String
  fix : String
  steps : String
  log_url : String
  model : String
  rag_context : Option String
deriving DecidableEq

/-- Case-insensitive key match: strips `key` from the head of `cs`,
returning the remainder. -/

def matchKeyChars : List Char → List Char → Option (List Char)
  | [], s => some s
  | _ :: _, [] => none
  | k :: ks, c :: cs => if k.toLower == c.toLower then matchKeyChars ks cs else none

/-- After the key, the regex `\s*:\s*(.*?)(?:\n|$)` consumes optional
whitespace, a colon and optional whitespace (the greedy `\s*` may cross
newlines), then captures up to the next newline or the end of text. -/

def fieldAfterKey (s : List Char) : Option (List Char) :=
  match s.dropWhile Char.isWhitespace with
  | ':' :: rest =>
    some ((rest.dropWhile Char.isWhitespace).takeWhile (fun c => !(c == '\n')))
  | _ => none

/-- Model of `re.search` of the field pattern: try every start position from the
left, like the regex engine does. -/

def searchField (key : List Char) : List Char → Option (List Char)
  | [] =>
    match matchKeyChars key [] with
    | some rest => fieldAfterKey rest
    | none => none
  | c :: cs =>
    match matchKeyChars key (c :: cs) with
    | some rest =>
      match fieldAfterKey rest with
      | some cap => some cap
      | none => searchField key cs
    | none => searchField key cs

/-- Model of `match.group(1).strip() if match else None` for one field. -/

def fieldValue (key text : String) : Option String :=
  (searchField key.data text.data).map (fun cs => String.mk (trimChars cs))

/-- The RAG pipeline oracle: truncated log content to either
`(response text, context digest)` or the caught exception's message. -/

structure LlmEnv where
  respond : String → Except String (String × String)

/-- Function `analyze_with_ai(log_path, model, log_url)` over the given file lines
(the content of `log_path`) and pipeline oracle. -/

def analyze_with_ai (env : LlmEnv) (fileLines : List String)
    (log_path model log_url : String) : AnalysisResult :=
  let lines := lastLines 10000 fileLines
  let log_content := String.join lines
  match env.respond log_content with
  | .ok (text, ctx) =>
    { name := basenameOf log_path
      raw := pyStrip text
      reason := (fieldValue "Reason" text).getD "Analysis incomplete"
      fix := (fieldValue "Fix" text).getD "See raw analysis for details"
      steps := (fieldValue "Steps" text).getD "Review full log"
      log_url := log_url
      model := model
      rag_context := some ctx }
  | .error e =>
    { name := basenameOf log_path
      raw := "RAG analysis failed: " ++ e
      reason := "Pipeline error"
      fix := "Check configuration"
      steps := "Verify Ollama service and network connection"
      log_url := log_url
      model := model
      rag_context := none }

/-- Oracle echoing the content back, used by the truncation witness. -/

def echoEnv : LlmEnv := ⟨fun c => .ok (c, "ctx")⟩

/-- Fixture of 10,001 lines whose first line differs from `wLinesB`. -/

def wLinesA : List String := "EARLY A\n" :: List.replicate 10000 "tail\n"

/-- Fixture of 10,001 lines whose first line differs from `wLinesA`. -/

def wLinesB : List String := "EARLY B\n" :: List.replicate 10000 "tail\n"

/-! ## `run_analysis` (src/FASTAPI_BACKEND/main.py, lines 513-552)

The background task.  Its first statement, *before* the `try` on line
516, is the unconditional debugging leftover `import pdb;
pdb.set_trace()` (line 514).  In a headless background task stdin is not
a terminal: `pdb` can raise (`BdbQuit` on a closed/EOF stdin or a
debugger quit) at the next trace event — the `try:` line itself — and at
that point no handler is installed yet, so the exception escapes
`run_analysis` to its caller.  Everything *after* that statement sits in
the one `try`/`except Exception` whose handler writes
`"❌ Error during analysis: {e}"` into the progress record.

The externals are bundled in `RunEnv`:

* `pdbTrace` — the `pdb.set_trace()` of line 514: `.error e` models the
  debugger raising (e.g. `BdbQuit`), which propagates uncaught;
* `openRoot` — the bare `urllib.request.urlopen(base_path)` on line 518
  (the only statement inside the `try` before the crawl that can raise);
* `site` — the HTTP world crawled by `collect_logs_with_failed_check`
  (whose own fetch failures are caught internally and never escape);
* `download` — the boolean verdict of `download_log_file` per log URL
  (that function catches all its errors and returns a `bool`);
* `analyze` — `analyze_with_ai(save_path, model, log_url)` (catches all
  its errors and returns a degraded dict rather than raising);
* `render` — `generate_html_report` (line 548), which can raise, e.g.
  `next(iter(...))` on an empty result list.

Accordingly `run_analysis_body` (the `try`/`except` part, main.py lines
516-552) is total into `RunOutcome`, while `run_analysis` itself returns
`Except String RunOutcome`: `.error e` is an exception propagated to the
external caller, which happens exactly when `pdbTrace` raises.

Notes on fidelity: the request argument `data_req` is (exactly as in the
source) never used — line 517 hardcodes `base_path` and line 520 crawls it
with `max_depth=2`.  The per-item "Checking/Analyzing" breadcrumbs written
racily by the pool workers are overwritten by a terminal status on every
path and are not modelled.  The `ThreadPoolExecutor` loop submits one
future per failed log in list order and then collects `future.result()`
in that same submission order (lines 540-545), which is the sequential
`collect_results` over the submission-ordered future list. -/

/-- The body of an analysis request (`AnalysisRequest` in main.py lines
81-87). -/

structure AnalysisRequest where
  source : String
  ceph_version : String
  rhel_version : String
  test_area : String
  build : String
  jenkins_build : String
deriving DecidableEq

/-- One entry of the `progress_data` map. -/

structure ProgressRecord where
  status : String
  total_logs : Nat
  failed_logs : Nat
deriving DecidableEq

/-- Instrumentation: the externally visible calls a run performs per
failed log. -/

inductive RunEvent where
  | downloadAttempt (log_url : String) (ok : Bool)
  | analyzerCall (save_path log_url : String)
deriving DecidableEq

/-- The orchestrator's external collaborators, `pdbTrace` being the
`import pdb; pdb.set_trace()` of main.py line 514 that runs before the
`try` (`.error e` = the debugger raised, e.g. `BdbQuit`). -/

structure RunEnv where
  pdbTrace : Except String Unit
  openRoot : Except String Unit
  site : Site
  download : String → Bool
  analyze : String → String → AnalysisResult
  render : List AnalysisResult → Except String Unit

/-- The URL hardcoded at main.py line 517. -/

def run_base_path : String :=
  "http://magna002.ceph.redhat.com/cephci-jenkins/results/openstack/IBM/8.1/rhel-9.6/Test/19.2.1-245.1.hotfix.bz2375001/870/tier-2_rgw_regression_extended/Test_non_current_deletion_via_s3cmd_0.err"

/-- Constant `LOG_DOWNLOAD_DIR` (main.py line 36). -/

def log_download_dir : String := "./download_failed_logs"

/-- Path `os.path.join(LOG_DOWNLOAD_DIR, log_url.split("/")[-1])` (main.py
lines 532-533). -/

def save_path_of (log_url : String) : String :=
  log_download_dir ++ "/" ++ basenameOf log_url

/-- The body of `analyze_one(idx, log_url)` (main.py lines 531-538):
download, and on success analyze; `None` marks a skipped entry. -/

def analyze_one (env : RunEnv) (log_url : String) :
    Option AnalysisResult × List RunEvent :=
  if env.download log_url then
    (some (env.analyze (save_path_of log_url) log_url),
      [.downloadAttempt log_url true, .analyzerCall (save_path_of log_url) log_url])
  else
    (none, [.downloadAttempt log_url false])

/-- The collection loop of main.py lines 542-545: walk the futures in
submission order, appending each non-`None` result. -/

def collect_results (futures : List (Option AnalysisResult)) : List AnalysisResult :=
  futures.foldl (fun acc r => match r with | some x => acc ++ [x] | none => acc) []

/-- The `all_logs` of the run's crawl (main.py line 520). -/

def run_all_logs (env : RunEnv) : List String :=
  (collect_logs_with_failed_check env.site run_base_path 2).1

/-- The `failed_logs` of the run's crawl (main.py line 520). -/

def run_failed_logs (env : RunEnv) : List String :=
  (collect_logs_with_failed_check env.site run_base_path 2).2

/-- List `analyzed_logs` after the executor block (main.py lines 529-545). -/

def run_analyzed (env : RunEnv) : List AnalysisResult :=
  collect_results ((run_failed_logs env).map (fun u => (analyze_one env u).1))

/-- All download/analyzer calls of the run, in submission order. -/

def run_events (env : RunEnv) : List RunEvent :=
  ((run_failed_logs env).map (fun u => (analyze_one env u).2)).flatten

/-- The `except` handler's status (main.py line 552). -/

def error_status (e : String) : String := "❌ Error during analysis: " ++ e

/-- The empty-`failed_logs` status suffix (main.py line 526, appended via
`+=`). -/

def no_failed_logs_msg : String := "\n⚠️ No failed logs to analyze."

/-- The terminal success status (main.py line 549). -/

def success_status (n : Nat) : String :=
  "✅ Analysis complete for " ++ toString n ++ " failed logs."

/-- Everything observable about one finished run. -/

structure RunOutcome where
  progress : ProgressRecord
  results : List AnalysisResult
  events : List RunEvent
  reportWritten : Bool
deriving DecidableEq

/-- The `try`/`except Exception` part of `run_analysis` (main.py lines
516-552), with `init` the progress record created for `report_id` by
`start_analysis`.  Total: every exception arising here is caught by the
handler of line 551. -/

def run_analysis_body (env : RunEnv) (data_req : AnalysisRequest)
    (init : ProgressRecord) : RunOutcome :=
  match env.openRoot with
  | .error e => ⟨{ init with status := error_status e }, [], [], false⟩
  | .ok _ =>
    let p1 : ProgressRecord :=
      { init with total_logs := (run_all_logs env).length,
                  failed_logs := (run_failed_logs env).length }
    if (run_failed_logs env).isEmpty then
      ⟨{ p1 with status := p1.status ++ no_failed_logs_msg }, [], [], false⟩
    else
      match env.render (run_analyzed env) with
      | .error e =>
        ⟨{ p1 with status := error_status e }, run_analyzed env, run_events env, false⟩
      | .ok _ =>
        ⟨{ p1 with status := success_status (run_analyzed env).length },
          run_analyzed env, run_events env, true⟩

/-- Function `run_analysis(data, report_id)` (main.py lines 513-552):
first the unconditional `import pdb; pdb.set_trace()` of line 514 — if it
raises, the exception escapes to the external caller (`.error e`) before
the `try` is entered and the progress record is never touched — and only
then the `try`/`except` body. -/

def run_analysis (env : RunEnv) (data_req : AnalysisRequest)
    (init : ProgressRecord) : Except String RunOutcome :=
  match env.pdbTrace with
  | .error e => .error e
  | .ok _ => .ok (run_analysis_body env data_req init)

/-- Witness environment for `run_analysis_no_failed_logs`: every page
fails to load, so the crawl discovers nothing. -/

def envNoFailed : RunEnv :=
  { pdbTrace := .ok ()
    openRoot := .ok ()
    site := fun _ => none
    download := fun _ => false
    analyze := fun p u => ⟨basenameOf p, "", "", "", "", u, "llama2", none⟩
    render := fun _ => .ok () }

/-- The progress record `start_analysis` creates (main.py lines 505-509). -/

def initRecord : ProgressRecord := ⟨"Initializing...", 0, 0⟩

/-- Fixture request used by the witnesses. -/

def reqA : AnalysisRequest :=
  ⟨"openstack", "8.1", "rhel-9.6", "Test", "19.2.1-245", "870"⟩

/-- A second, entirely different `AnalysisRequest` fixture. -/

def reqB : AnalysisRequest :=
  ⟨"ibm", "7.1", "rhel-8.8", "Sanity", "18.2.0-100", "123"⟩

/-- Environment in which the `pdb.set_trace()` of main.py line 514
raises `BdbQuit` (headless stdin / debugger quit); everything else is
healthy. -/

def envPdbQuit : RunEnv :=
  { pdbTrace := .error "BdbQuit"
    openRoot := .ok ()
    site := fun _ => none
    download := fun _ => false
    analyze := fun p u => ⟨basenameOf p, "", "", "", "", u, "llama2", none⟩
    render := fun _ => .ok () }

/-- Witness site for `results_preserve_discovery_order`: the hardcoded
root page links two failed logs. -/

def siteC3 : Site := fun u =>
  if u = run_base_path then
    some [⟨"a.log", "Failed", "color: red"⟩, ⟨"b.log", "Failed", "color: red"⟩]
  else none

/-- Witness environment for `results_preserve_discovery_order`: the
download of `a.log` fails, `b.log` succeeds. -/

def envC3 : RunEnv :=
  { pdbTrace := .ok ()
    openRoot := .ok ()
    site := siteC3
    download := fun u => u != urljoin run_base_path "a.log"
    analyze := fun p u => ⟨basenameOf p, "raw", "r", "f", "s", u, "llama2", some "ctx"⟩
    render := fun _ => .ok () }

/-!
Supporting lemmas
-/

/-- The emitted block strings are exactly the instrumented blocks, joined
and stripped of trailing newlines. -/

lemma extractGo_eq_map_joinBlock :
    ∀ (ls curr : List String) (inBlock : Bool),
      extractGo ls curr inBlock = (extractBlocksGo ls curr inBlock).map joinBlock := by
  intro ls
  induction ls with
  | nil =>
    intro curr inBlock
    by_cases h : curr.isEmpty <;> simp [extractGo, extractBlocksGo, h]
  | cons line rest ih =>
    intro curr inBlock
    by_cases hs : isBlockStart line
    · by_cases h : curr.isEmpty <;>
        simp [extractGo, extractBlocksGo, hs, h, ih]
    · cases inBlock with
      | false => simp [extractGo, extractBlocksGo, hs, ih]
      | true =>
        by_cases hc : isContinuation line <;>
          simp [extractGo, extractBlocksGo, hs, hc, ih]

/-- The original lines of the emitted blocks form, in order, a sublist of
`curr ++ ls`: no line is duplicated or reordered by the extractor. -/

lemma extractBlocksGo_flatten_sublist :
    ∀ (ls curr : List String) (inBlock : Bool),
      List.Sublist (extractBlocksGo ls curr inBlock).flatten (curr ++ ls) := by
  intro ls
  induction ls with
  | nil =>
    intro curr inBlock
    by_cases h : curr.isEmpty
    · simp [extractBlocksGo, h]
    · simp [extractBlocksGo, h]
  | cons line rest ih =>
    intro curr inBlock
    by_cases hs : isBlockStart line
    · by_cases h : curr.isEmpty
      · have hnil : curr = [] := by simpa [List.isEmpty_iff] using h
        subst hnil
        simpa [extractBlocksGo, hs, h] using
          ((ih [line] true).trans (by simp))
      · have := (ih [line] true)
        simp only [extractBlocksGo, hs, if_pos, h, if_neg]
        simpa using List.Sublist.append_left (by simpa using this) curr
    · cases inBlock with
      | false =>
        simpa [extractBlocksGo, hs] using
          (ih curr false).trans (List.Sublist.append_left (List.sublist_cons_self line rest) curr)
      | true =>
        by_cases hc : isContinuation line
        · have := ih (curr ++ [line]) true
          simpa [extractBlocksGo, hs, hc] using this
        · have h1 : List.Sublist (extractBlocksGo rest [] false).flatten rest := by
            simpa using ih [] false
          have h2 : List.Sublist (curr ++ (extractBlocksGo rest [] false).flatten)
              (curr ++ line :: rest) :=
            List.Sublist.append_left (h1.trans (List.sublist_cons_self line rest)) curr
          simpa [extractBlocksGo, hs, hc] using h2

/-- Every fetch recorded by the anchor loop comes from descending into
some subdirectory anchor of the page. -/

lemma crawlAnchors_fetched_subset (go : String → CrawlOut) (url : String) :
    ∀ (l : List Anchor) (p : String × Nat), p ∈ (crawlAnchors go url l).fetched →
      ∃ a ∈ l, isDirHref a.href = true ∧ p ∈ (go (urljoin url a.href)).fetched := by
  intro l
  induction l with
  | nil => intro p hp; simp [crawlAnchors, CrawlOut.empty] at hp
  | cons a rest ih =>
    intro p hp
    by_cases hd : isDirHref a.href
    · simp [crawlAnchors, CrawlOut.app, hd] at hp
      rcases hp with hp | hp
      · exact ⟨a, by simp, hd, hp⟩
      · rcases ih p hp with ⟨b, hb, hdb, hpb⟩
        exact ⟨b, by simp [hb], hdb, hpb⟩
    · simp [crawlAnchors, CrawlOut.app, CrawlOut.empty, hd] at hp
      rcases ih p hp with ⟨b, hb, hdb, hpb⟩
      exact ⟨b, by simp [hb], hdb, hpb⟩

/-- Depth discipline of the recursive crawl: every fetch happens at a depth
between the current depth and `max_depth`. -/

lemma crawlGo_fetched_depth (site : Site) (max_depth : Nat) :
    ∀ (fuel depth : Nat) (url : String) (p : String × Nat),
      p ∈ (crawlGo site max_depth fuel depth url).fetched →
      depth ≤ p.2 ∧ p.2 ≤ max_depth := by
  intro fuel
  induction fuel with
  | zero => intro depth url p hp; simp [crawlGo, CrawlOut.empty] at hp
  | succ fuel ih =>
    intro depth url p hp
    by_cases hlt : max_depth < depth
    · simp [crawlGo, hlt, CrawlOut.empty] at hp
    · cases hsite : site url with
      | none =>
        simp [crawlGo, hlt, hsite] at hp
        subst hp
        exact ⟨le_rfl, by omega⟩
      | some anchors =>
        simp [crawlGo, hlt, hsite, CrawlOut.app] at hp
        rcases hp with hp | hp
        · subst hp; exact ⟨le_rfl, by omega⟩
        · rcases crawlAnchors_fetched_subset _ url anchors p hp with ⟨a, _, _, hpa⟩
          have h2 := ih (depth + 1) (urljoin url a.href) p hpa
          exact ⟨by omega, h2.2⟩

/-- If the recursive step fetches nothing, the anchor loop fetches nothing. -/

lemma crawlAnchors_fetched_nil (go : String → CrawlOut) (url : String)
    (hgo : ∀ u, (go u).fetched = []) :
    ∀ l : List Anchor, (crawlAnchors go url l).fetched = [] := by
  intro l
  induction l with
  | nil => simp [crawlAnchors, CrawlOut.empty]
  | cons a rest ih =>
    by_cases hd : isDirHref a.href <;>
      simp [crawlAnchors, CrawlOut.app, CrawlOut.empty, hd, hgo, ih]

/-- With `max_depth = 0` the only page ever fetched is the root. -/

lemma crawlResult_fetched_zero (site : Site) (root : String) :
    (crawlResult site root 0).fetched = [(root, 0)] := by
  unfold crawlResult crawlGo
  cases hsite : site root with
  | none => simp [hsite]
  | some anchors =>
    have h := crawlAnchors_fetched_nil (fun u => crawlGo site 0 0 1 u) root
      (fun u => rfl) anchors
    simp [hsite, CrawlOut.app, h]

/-- The submission-order collection loop computes exactly the
`filterMap` of the future outcomes. -/

lemma collect_results_eq_filterMap (futures : List (Option AnalysisResult)) :
    collect_results futures = futures.filterMap id := by
  have h : ∀ (l : List (Option AnalysisResult)) (acc : List AnalysisResult),
      l.foldl (fun acc r => match r with | some x => acc ++ [x] | none => acc) acc =
        acc ++ l.filterMap id := by
    intro l
    induction l with
    | nil => intro acc; simp
    | cons r rest ih =>
      intro acc
      cases r with
      | none => simpa using ih acc
      | some x => simpa using ih (acc ++ [x])
  simpa using h futures []

/-- A `filterMap` whose hits agree with `g` is a sublist of the full
`map g` — the skip-preserving order property. -/

lemma filterMap_sublist_map {α β : Type} (f : α → Option β) (g : α → β)
    (l : List α) (h : ∀ a b, f a = some b → b = g a) :
    List.Sublist (l.filterMap f) (l.map g) := by
  induction l with
  | nil => simp
  | cons a rest ih =>
    cases hfa : f a with
    | none =>
      simp only [List.filterMap_cons, hfa, List.map_cons]
      exact ih.trans (List.sublist_cons_self _ _)
    | some b =>
      have hb := h a b hfa
      subst hb
      simp only [List.filterMap_cons, hfa, List.map_cons]
      exact List.Sublist.cons₂ _ ih

/-- The `try`/`except Exception` part of the run is total into
`RunOutcome` and surfaces every exception of its raise points: every
terminal status is either an error status carrying the exception detail,
the "no failed logs" status, or the success status; an exception from the
initial `urlopen` is surfaced as the terminal error status and stops the
body before any download or Analyzer call; and an exception from report
rendering is surfaced as the terminal error status.  (This covers main.py
lines 516-552 only: the `pdb.set_trace()` of line 514 runs before the
`try` and is outside this guarantee — see `run_analysis_pdb_escape`.) -/

lemma run_analysis_body_surfaces_exceptions (env : RunEnv)
    (data_req : AnalysisRequest) (init : ProgressRecord) :
    ((∃ e, (run_analysis_body env data_req init).progress.status = error_status e) ∨
      (run_analysis_body env data_req init).progress.status =
        init.status ++ no_failed_logs_msg ∨
      (∃ n, (run_analysis_body env data_req init).progress.status = success_status n)) ∧
    (∀ e, env.openRoot = .error e →
      (run_analysis_body env data_req init).progress.status = error_status e ∧
      (run_analysis_body env data_req init).results = [] ∧
      (run_analysis_body env data_req init).events = []) ∧
    (∀ e, env.openRoot = .ok () → run_failed_logs env ≠ [] →
      env.render (run_analyzed env) = .error e →
      (run_analysis_body env data_req init).progress.status = error_status e) := by
  refine ⟨?_, ?_, ?_⟩
  · cases hopen : env.openRoot with
    | error e => exact Or.inl ⟨e, by simp [run_analysis_body, hopen]⟩
    | ok u =>
      cases u
      by_cases hemp : (run_failed_logs env).isEmpty
      · exact Or.inr (Or.inl (by simp [run_analysis_body, hopen, hemp]))
      · cases hrender : env.render (run_analyzed env) with
        | error e =>
          exact Or.inl ⟨e, by simp [run_analysis_body, hopen, hemp, hrender]⟩
        | ok u2 =>
          cases u2
          exact Or.inr (Or.inr ⟨(run_analyzed env).length,
            by simp [run_analysis_body, hopen, hemp, hrender]⟩)
  · intro e he
    simp [run_analysis_body, he]
  · intro e hok hne hrender
    have hemp : (run_failed_logs env).isEmpty = false := by
      cases h : (run_failed_logs env).isEmpty
      · rfl
      · exact absurd (List.isEmpty_iff.mp h) hne
    simp [run_analysis_body, hok, hemp, hrender]

/-!
Claim theorems
-/

/-- Claim C1.  For every root URL and every `max_depth = D ≥ 0`, the crawler
of `collect_logs_with_failed_check` (root at depth 0) never fetches or
processes a directory listing at depth greater than `D`; along every
traversal path the depth of each fetch in a subtree is at least the depth
of the subtree's own node (depth is monotonically non-decreasing); and
with `max_depth = 0` exactly the root page is fetched. -/

theorem crawler_depth_bounded (site : Site) (max_depth : Nat) (root : String) :
    (∀ p ∈ (crawlResult site root max_depth).fetched, p.2 ≤ max_depth) ∧
    (∀ (fuel depth : Nat) (url : String),
      ∀ p ∈ (crawlGo site max_depth fuel depth url).fetched, depth ≤ p.2) ∧
    (crawlResult site root 0).fetched = [(root, 0)] :=
  ⟨fun p hp => (crawlGo_fetched_depth site max_depth (max_depth + 1) 0 root p hp).2,
   fun fuel depth url p hp => (crawlGo_fetched_depth site max_depth fuel depth url p hp).1,
   crawlResult_fetched_zero site root⟩

/-- Witness for `crawler_depth_bounded`: in the concrete crawl of `site1`
with `max_depth = 1`, the subdirectory fetch `("r/sub/", 1)` recorded by
the instrumented crawler indeed has depth at most 1. -/

theorem crawler_depth_bounded_witness :
    (("r/sub/", 1) : String × Nat).2 ≤ 1 :=
  (crawler_depth_bounded site1 1 "r/").1 ("r/sub/", 1) (by decide)

/-- Claim C2, counterexample.  The claim says that on any I/O or network
error `download_log_file` returns `False` *and leaves the filesystem at
`destinationPath` unchanged*.  Starting from an empty filesystem, a read
error after the connection succeeded does return `False`, but leaves a
partial (empty) file behind at the destination: the source opens
`save_path` for writing before reading the response body and performs no
temporary-file-and-rename dance. -/

theorem download_leftover_file_counterexample :
    (download_log_file [] "http://host/x.log" "x.log" (.readError "reset")).1 = false ∧
    (download_log_file [] "http://host/x.log" "x.log" (.readError "reset")).2 ≠ ([] : FileSys) ∧
    FileSys.hasFile
      (download_log_file [] "http://host/x.log" "x.log" (.readError "reset")).2 "x.log" = true := by
  refine ⟨rfl, ?_, rfl⟩
  intro h
  simp [download_log_file, FileSys.hasFile, FileSys.writeFile] at h

/-- Claim C2, amended.  For a destination that does not yet exist,
`download_log_file` returns `False` on any network error; the filesystem
is left unchanged when the error occurs while opening the connection
(before the destination file is created), but an error during the body
read leaves an empty partial file behind at `destinationPath`. -/

theorem download_log_file_error_behaviour (fs : FileSys) (url p e : String)
    (hnew : fs.hasFile p = false) :
    download_log_file fs url p (.connectError e) = (false, fs) ∧
    download_log_file fs url p (.readError e) = (false, fs.writeFile p "") := by
  simp [download_log_file, hnew]

/-- Witness for `download_log_file_error_behaviour` on the empty
filesystem. -/

theorem download_log_file_error_behaviour_witness :
    download_log_file [] "http://host/x.log" "x.log" (.connectError "dns") = (false, []) ∧
    download_log_file [] "http://host/x.log" "x.log" (.readError "dns") =
      (false, FileSys.writeFile [] "x.log" "") :=
  download_log_file_error_behaviour [] "http://host/x.log" "x.log" "dns" (by decide)

/-- Claim C3.  For a run whose crawl produced a non-empty failed-logs
collection (the `pdb.set_trace()` of line 514 passed and the initial
`urlopen` did not raise), the run returns its body's outcome, whose
result sequence is exactly the submission-ordered `filterMap` of the
per-entry outcomes over the failed-logs list — results are collected by
original submission index, not completion order, and the sequence is a
sublist of the full per-entry analysis sequence: entries skipped on
download failure are removed without reordering the rest. -/

theorem results_preserve_discovery_order (env : RunEnv)
    (data_req : AnalysisRequest) (init : ProgressRecord)
    (hpdb : env.pdbTrace = .ok ()) (hok : env.openRoot = .ok ())
    (hne : run_failed_logs env ≠ []) :
    run_analysis env data_req init = .ok (run_analysis_body env data_req init) ∧
    (run_analysis_body env data_req init).results =
      (run_failed_logs env).filterMap (fun u => (analyze_one env u).1) ∧
    List.Sublist
      ((run_failed_logs env).filterMap (fun u => (analyze_one env u).1))
      ((run_failed_logs env).map (fun u => env.analyze (save_path_of u) u)) := by
  have hemp : (run_failed_logs env).isEmpty = false := by
    cases h : (run_failed_logs env).isEmpty
    · rfl
    · exact absurd (List.isEmpty_iff.mp h) hne
  refine ⟨by simp [run_analysis, hpdb], ?_, ?_⟩
  · have hres : (run_analysis_body env data_req init).results = run_analyzed env := by
      cases hrender : env.render (run_analyzed env) <;>
        simp [run_analysis_body, hok, hemp, hrender]
    rw [hres, run_analyzed, collect_results_eq_filterMap, List.filterMap_map]
    simp
  · apply filterMap_sublist_map
    intro a b hab
    unfold analyze_one at hab
    by_cases hd : env.download a
    · simp [hd] at hab
      exact hab.symm
    · simp [hd] at hab

set_option maxRecDepth 8000 in

/-- Witness for `results_preserve_discovery_order` on the two-failed-log
environment with one skipped download. -/

theorem results_preserve_discovery_order_witness :
    run_analysis envC3 reqB initRecord = .ok (run_analysis_body envC3 reqB initRecord) ∧
    (run_analysis_body envC3 reqB initRecord).results =
      (run_failed_logs envC3).filterMap (fun u => (analyze_one envC3 u).1) ∧
    List.Sublist
      ((run_failed_logs envC3).filterMap (fun u => (analyze_one envC3 u).1))
      ((run_failed_logs envC3).map (fun u => envC3.analyze (save_path_of u) u)) :=
  results_preserve_discovery_order envC3 reqB initRecord rfl rfl (by decide)

/-- Claim C4, counterexample.  The claim says that while the extractor is in
the `in_block` state a line containing `"Traceback"` is a continuation and
is appended to the currently open block; on `["Traceback one\n",
"Traceback two\n"]` that would yield the single block
`"Traceback one\nTraceback two"`.  The code instead hits the block-start
branch (`error_message or "Traceback" in line`) first, closes the open
block and starts a new one, producing two blocks. -/

theorem traceback_continuation_counterexample :
    extract_error_blocks ["Traceback one\n", "Traceback two\n"] =
      ["Traceback one", "Traceback two"] ∧
    extract_error_blocks ["Traceback one\n", "Traceback two\n"] ≠
      ["Traceback one\nTraceback two"] := by
  decide

/-- Claim C4, amended.  While `in_block`, any line containing `"Traceback"`
closes (emits) the currently open block and opens a new block that starts
with that line — it is never appended to the open block.  (The
`line.startswith("Traceback")` continuation test in the `elif` branch of
utils.py line 27 is unreachable, because the block-start branch already
captures every line containing `"Traceback"`.) -/

theorem traceback_closes_open_block (rest curr : List String) (line : String)
    (hT : strContains line "Traceback" = true) :
    extractGo (line :: rest) curr true =
      (if curr.isEmpty then [] else [joinBlock curr]) ++ extractGo rest [line] true := by
  have hs : isBlockStart line = true := by simp [isBlockStart, hT]
  simp [extractGo, hs]

/-- Witness for `traceback_closes_open_block` at a concrete open block and
a concrete Traceback line. -/

theorem traceback_closes_open_block_witness :
    extractGo ["Traceback two\n"] ["Traceback one\n"] true =
      (if (["Traceback one\n"] : List String).isEmpty then []
        else [joinBlock ["Traceback one\n"]]) ++ extractGo [] ["Traceback two\n"] true :=
  traceback_closes_open_block [] ["Traceback one\n"] "Traceback two\n" (by decide)

/-- Claim C5, code-bug evidence.  The spec's contract is
`run(rootURL, maxDepth, progressKey)`: the crawl should start at the root
URL supplied by the caller's request, so different requests crawl
different trees.  The source instead hardcodes `base_path` (main.py line
517) and never reads `data`: two entirely different requests produce
identical runs against every environment. -/

theorem run_analysis_ignores_request :
    reqA ≠ reqB ∧
    ∀ (env : RunEnv) (init : ProgressRecord),
      run_analysis env reqA init = run_analysis env reqB init :=
  ⟨by decide, fun _ _ => rfl⟩

/-- Claim C6.  The `failed_logs` component returned by
`collect_logs_with_failed_check` is duplicate-free: it has the same
membership as the raw appended `failed_logs` accumulator, and every URL
that was discovered (possibly through several anchors or pages) occurs in
it exactly once. -/

theorem failed_logs_no_duplicates (site : Site) (base_url : String)
    (max_depth : Nat) (u : String) :
    (collect_logs_with_failed_check site base_url max_depth).2.Nodup ∧
    (u ∈ (collect_logs_with_failed_check site base_url max_depth).2 ↔
      u ∈ (crawlResult site base_url max_depth).failedLogs) ∧
    (collect_logs_with_failed_check site base_url max_depth).2.count u =
      (if u ∈ (crawlResult site base_url max_depth).failedLogs then 1 else 0) := by
  refine ⟨List.nodup_dedup _, List.mem_dedup, ?_⟩
  by_cases hu : u ∈ (crawlResult site base_url max_depth).failedLogs
  · rw [if_pos hu]
    exact List.count_eq_one_of_mem (List.nodup_dedup _) (List.mem_dedup.mpr hu)
  · rw [if_neg hu]
    exact List.count_eq_zero.mpr (fun h => hu (List.mem_dedup.mp h))

/-- Claim C7, counterexample.  The claim says each emitted block's text
preserves the original line content except that *a* trailing newline is
trimmed.  The source applies `rstrip("\n")`, which trims *all* trailing
newline characters: on `["Traceback x\n", "\n"]` the single block consists
of both lines, whose joined text `"Traceback x\n\n"` is emitted as
`"Traceback x"`, not as the one-newline-trimmed `"Traceback x\n"`. -/

theorem trailing_newline_counterexample :
    extractBlockLines ["Traceback x\n", "\n"] = [["Traceback x\n", "\n"]] ∧
    extract_error_blocks ["Traceback x\n", "\n"] = ["Traceback x"] ∧
    specTrimOneNewline (String.join ["Traceback x\n", "\n"]) = "Traceback x\n" ∧
    extract_error_blocks ["Traceback x\n", "\n"] ≠
      [specTrimOneNewline (String.join ["Traceback x\n", "\n"])] := by
  decide

/-- Claim C7, amended.  The blocks emitted by `extract_error_blocks` appear
in document order, and concatenating all emitted blocks' original lines
reconstructs a sublist (subsequence) of the input lines in original order;
each emitted block's text is its original lines joined, with *all trailing
newline characters* trimmed. -/

theorem extract_error_blocks_document_order (lines : List String) :
    List.Sublist (extractBlockLines lines).flatten lines ∧
    extract_error_blocks lines = (extractBlockLines lines).map joinBlock :=
  ⟨by simpa using extractBlocksGo_flatten_sublist lines [] false,
   extractGo_eq_map_joinBlock lines [] false⟩

/-- Claim C8.  When the crawl yields no failed logs (the
`pdb.set_trace()` of line 514 passed and the initial `urlopen` of the
hardcoded root did not raise), the run returns its body's outcome, which
appends the terminal "no failed logs" message to the progress status,
returns an empty result sequence, performs no download attempt and no
Analyzer call, and writes no report. -/

theorem run_analysis_no_failed_logs (env : RunEnv) (data_req : AnalysisRequest)
    (init : ProgressRecord) (hpdb : env.pdbTrace = .ok ())
    (hok : env.openRoot = .ok ()) (hempty : run_failed_logs env = []) :
    run_analysis env data_req init = .ok (run_analysis_body env data_req init) ∧
    (run_analysis_body env data_req init).results = [] ∧
    (run_analysis_body env data_req init).progress.status =
      init.status ++ no_failed_logs_msg ∧
    (run_analysis_body env data_req init).events = [] ∧
    (run_analysis_body env data_req init).reportWritten = false := by
  refine ⟨by simp [run_analysis, hpdb], ?_⟩
  simp [run_analysis_body, hok, hempty]

/-- Witness for `run_analysis_no_failed_logs` on a concrete unreachable
site. -/

theorem run_analysis_no_failed_logs_witness :
    run_analysis envNoFailed reqA initRecord =
      .ok (run_analysis_body envNoFailed reqA initRecord) ∧
    (run_analysis_body envNoFailed reqA initRecord).results = [] ∧
    (run_analysis_body envNoFailed reqA initRecord).progress.status =
      initRecord.status ++ no_failed_logs_msg ∧
    (run_analysis_body envNoFailed reqA initRecord).events = [] ∧
    (run_analysis_body envNoFailed reqA initRecord).reportWritten = false :=
  run_analysis_no_failed_logs envNoFailed reqA initRecord rfl rfl (by decide)

/-- Claim C9, code-bug evidence.  The claim (and the spec: user-visible
failure is always communicated via the ProgressRecord status, never via a
thrown error reaching an external caller of `run`) is the evident intent,
but the code violates it: the unconditional `import pdb; pdb.set_trace()`
at main.py line 514 runs *before* the `try` of line 516, and when the
debugger raises (`BdbQuit` on a headless/EOF stdin or a user quit) the
exception escapes `run_analysis` uncaught, with the progress record left
untouched.  The same environment with the debugging leftover passing runs
normally into the `try`/`except` body, whose exception-surfacing
behaviour is `run_analysis_body_surfaces_exceptions`. -/

theorem run_analysis_pdb_escape :
    run_analysis envPdbQuit reqA initRecord = .error "BdbQuit" ∧
    run_analysis { envPdbQuit with pdbTrace := .ok () } reqA initRecord =
      .ok (run_analysis_body { envPdbQuit with pdbTrace := .ok () } reqA initRecord) :=
  ⟨rfl, rfl⟩

/-- Claim C10.  `analyze_with_ai` truncates the log to its final 10,000
lines before analysis: the truncation keeps at most 10,000 lines, and any
two log contents agreeing on their final 10,000 lines produce identical
`AnalysisResult`s — lines earlier than the final 10,000 never influence
the result. -/

theorem analyze_with_ai_truncates (env : LlmEnv) (l1 l2 : List String)
    (log_path model log_url : String)
    (h : lastLines 10000 l1 = lastLines 10000 l2) :
    analyze_with_ai env l1 log_path model log_url =
      analyze_with_ai env l2 log_path model log_url ∧
    (lastLines 10000 l1).length ≤ 10000 := by
  constructor
  · unfold analyze_with_ai
    rw [h]
  · simp only [lastLines, List.length_drop]
    omega

/-- Witness for `analyze_with_ai_truncates`: two 10,001-line logs that
differ only in their first line are analyzed identically. -/

theorem analyze_with_ai_truncates_witness :
    analyze_with_ai echoEnv wLinesA "a/b.log" "llama2" "http://host/b.log" =
      analyze_with_ai echoEnv wLinesB "a/b.log" "llama2" "http://host/b.log" ∧
    (lastLines 10000 wLinesA).length ≤ 10000 :=
  analyze_with_ai_truncates echoEnv wLinesA wLinesB "a/b.log" "llama2" "http://host/b.log"
    (by
      unfold wLinesA wLinesB lastLines
      rw [List.length_cons, List.length_cons, List.length_replicate]
      norm_num [List.drop_one])

end CicdAnalysis
